import Mathlib

/-!
Shallow embedding of the `XimicYT/decoys` game servers.

The repository holds several near-duplicate variants of the same game
server.  `src/server.js` contains two programs:

* the *primary* variant (first program in the file): lobby/status-driven
  `gameState`, bullets with a lifetime, slot-2 mark action, the
  `setInterval` tick loop;
* the *walls* variant (second program): wall obstacles, bullets without a
  lifetime, `gameLoop` driven by `gameInterval`.

`src/unnamed/part_000` is a simpler lifetimed variant (namespace `P0`
below); `src/unnamed/part_001` is a pure relay server with no simulation
state and is not modelled.

Numbers are modelled as rationals (`Rat`); JavaScript `Math.sqrt`,
`Math.atan2`, `Math.cos` and `Math.sin` are irrational and are passed as
explicit function parameters wherever the source calls them, so every
theorem below that quantifies over those parameters holds for the real
functions in particular.  `Math.hypot a b < r` is modelled as
`a*a + b*b < r*r`, which is equivalent for `r ≥ 0`.  JavaScript objects
keyed by socket id are modelled as lists of records carrying an `id`
field, in insertion order (object iteration order); socket ids are unique,
so first-match lookup agrees with object indexing.
-/

namespace Decoys

/-- `1 / TICK_RATE` with `TICK_RATE = 30` (`const dt = 1 / TICK_RATE`). -/
def dt : Rat := 1 / 30

/-- `const GAME_WIDTH = 2000`. -/
def GAME_WIDTH : Rat := 2000

/-- `const GAME_HEIGHT = 2000`. -/
def GAME_HEIGHT : Rat := 2000

/-- Squared distance between `(x1, y1)` and `(x2, y2)`, as the source
computes it: `dx*dx + dy*dy`. -/
def distSq (x1 y1 x2 y2 : Rat) : Rat :=
  (x1 - x2) * (x1 - x2) + (y1 - y2) * (y1 - y2)

/-- `gameState.status` values of the primary variant. -/
inductive Status where
  | LOBBY
  | PLAYING
  | ENDED
deriving DecidableEq

/-- One player record of the primary variant (`gameState.players[id]`).
The connection handler leaves `ammo`, `idleTime` and `mark` undefined
until `resetGame` runs.  `mark` is modelled as `Option Nat`: `none`
stands for the absent field (`undefined`) and for the `NaN` that an
unguarded `(mark + 1) % 4` turns it into — both outside `{0,1,2,3}`.
`ammo` and `idleTime` are modelled with a default of `0` because no
modelled behaviour observes their pre-reset values: firing requires the
hunter role, which only `resetGame` assigns (and `undefined > 0` is
false, just like `0 > 0`), and `idleTime` is never read. -/
structure Player where
  id : String
  x : Rat
  y : Rat
  role : String
  color : String
  dead : Bool
  name : String
  host : Bool
  activeSlot : Nat
  stamina : Rat
  ammo : Int
  idleTime : Rat
  mark : Option Nat
deriving DecidableEq

/-- One NPC record of the primary variant. -/
structure NPC where
  id : String
  x : Rat
  y : Rat
  moveX : Int
  moveY : Int
  moveTimer : Rat
  sprinting : Bool
  color : String
  mark : Nat
  dead : Bool
deriving DecidableEq

/-- One bullet record (`gameState.bullets[i]`). -/
structure Bullet where
  x : Rat
  y : Rat
  vx : Rat
  vy : Rat
  life : Rat
  owner : String
deriving DecidableEq

/-- One-shot events pushed to `gameState.events`. -/
inductive Event where
  | kill (x y : Rat) (color : String)
  | msg (text : String)
  | shake (amount : Rat)
  | sound (name : String)
deriving DecidableEq

/-- A client `input` message (`socket.on("input")` payload).  `slot = 0`
models an absent/falsy `input.slot`. -/
structure Input where
  dx : Rat
  dy : Rat
  sprint : Bool
  shoot : Bool
  aimX : Rat
  aimY : Rat
  slot : Nat
deriving DecidableEq

/-- The primary variant's `gameState`. -/
structure GameState where
  status : Status
  players : List Player
  npcs : List NPC
  bullets : List Bullet
  timer : Rat
  events : List Event
deriving DecidableEq

/-- Count of dead entities, used to compare NPC lists before and after a
collision pass. -/
def deadCount (l : List NPC) : Nat :=
  l.countP (fun n => n.dead)

/-- Number of positions at which two equal-length lists differ
(pointwise). -/
def changedCount {α : Type} [DecidableEq α] : List α → List α → Nat
  | a :: as, b :: bs => (if a = b then 0 else 1) + changedCount as bs
  | _, _ => 0

/-- Primary-variant boundary clamping of one coordinate, exactly as the
input handler writes it:
`if (v < 20) v = 20; else if (v > hi - 20) v = hi - 20;` where `hi` is
`GAME_WIDTH` for x and `GAME_HEIGHT` for y. -/
def clampCoord (hi v : Rat) : Rat :=
  if v < 20 then 20 else if hi - 20 < v then hi - 20 else v

/-- Movement + boundary clamping block of the primary input handler
(`server.js` lines 127–142).  `sqrtf` stands for `Math.sqrt`. -/
def moveClamp (sqrtf : Rat → Rat) (speed : Rat) (inp : Input) (p : Player) : Player :=
  let p1 :=
    if inp.dx ≠ 0 ∨ inp.dy ≠ 0 then
      let lenSq := inp.dx * inp.dx + inp.dy * inp.dy
      if 0 < lenSq then
        let len := sqrtf lenSq
        { p with x := p.x + (inp.dx / len) * speed * dt,
                 y := p.y + (inp.dy / len) * speed * dt,
                 idleTime := 0 }
      else p
    else { p with idleTime := p.idleTime + dt }
  { p1 with x := clampCoord GAME_WIDTH p1.x, y := clampCoord GAME_HEIGHT p1.y }

/-- Slot-2 mark pass over NPCs (`server.js` lines 160–168): advance the
mark of the first alive NPC within the click radius (`3600 = 60 * 60`,
squared) and stop (`break`).  Returns the updated list and the `hitFound`
flag. -/
def markFirstNPC (aimX aimY : Rat) : List NPC → List NPC × Bool
  | [] => ([], false)
  | n :: ns =>
    if ¬n.dead ∧ distSq n.x n.y aimX aimY < 3600 then
      ({ n with mark := (n.mark + 1) % 4 } :: ns, true)
    else
      let r := markFirstNPC aimX aimY ns
      (n :: r.1, r.2)

/-- The primary variant's player-marking update
`target.mark = (target.mark + 1) % 4` (line 175), under JavaScript
arithmetic: an initialized mark advances modulo 4, while an undefined or
`NaN` mark (`none`) yields `NaN` (`none`) — there is no `|| 0` guard in
this variant. -/
def jsMarkStep : Option Nat → Option Nat
  | some k => some ((k + 1) % 4)
  | none => none

/-- Slot-2 mark pass over players (`server.js` lines 170–178): advance the
mark of the first alive hider within the click radius and stop. -/
def markFirstPlayer (aimX aimY : Rat) : List Player → List Player
  | [] => []
  | p :: ps =>
    if p.role = "hider" ∧ ¬p.dead ∧ distSq p.x p.y aimX aimY < 3600 then
      { p with mark := jsMarkStep p.mark } :: ps
    else p :: markFirstPlayer aimX aimY ps

/-- Whole slot-2 mark action of the primary input handler: NPCs first,
players only when no NPC was marked (`if (!hitFound)`). -/
def markAction (aimX aimY : Rat) (npcs : List NPC) (players : List Player) :
    List NPC × List Player :=
  let r := markFirstNPC aimX aimY npcs
  if r.2 then (r.1, players) else (r.1, markFirstPlayer aimX aimY players)

/-- `markAction` as a step function on the pair of entity lists, for
stating repeated applications. -/
def markActionP (aimX aimY : Rat) (st : List NPC × List Player) :
    List NPC × List Player :=
  markAction aimX aimY st.1 st.2

/-- Bullet-vs-NPC pass of the primary tick loop (`server.js` lines
257–270): kill the first alive NPC with squared distance `< 625` and stop
(`break`); report whether a hit happened and the pushed events. -/
def killFirstNPC (bx byy : Rat) : List NPC → List NPC × Bool × List Event
  | [] => ([], false, [])
  | n :: ns =>
    if ¬n.dead ∧ distSq n.x n.y bx byy < 625 then
      ({ n with dead := true } :: ns, true,
        [Event.kill n.x n.y n.color, Event.msg "CIVILIAN CASUALTY", Event.shake 10])
    else
      let r := killFirstNPC bx byy ns
      (n :: r.1, r.2.1, r.2.2)

/-- Bullet-vs-player pass of the primary tick loop (`server.js` lines
277–293): kill the first alive hider with squared distance `< 625` and
stop. -/
def killFirstHider (bx byy : Rat) : List Player → List Player × Bool × List Event
  | [] => ([], false, [])
  | p :: ps =>
    if p.role = "hider" ∧ ¬p.dead ∧ distSq p.x p.y bx byy < 625 then
      ({ p with dead := true } :: ps, true,
        [Event.kill p.x p.y p.color, Event.msg "TARGET ELIMINATED", Event.shake 20])
    else
      let r := killFirstHider bx byy ps
      (p :: r.1, r.2.1, r.2.2)

/-- Result of processing one bullet in the primary tick loop.  `keep` is
`none` when the bullet was spliced out this tick. -/
structure BulletOut where
  npcs : List NPC
  players : List Player
  events : List Event
  keep : Option Bullet
deriving DecidableEq

/-- Integration and lifetime decrement of one primary bullet
(`server.js` lines 248–250). -/
def bulletNext (b : Bullet) : Bullet :=
  { b with x := b.x + b.vx * dt, y := b.y + b.vy * dt, life := b.life - dt }

/-- One iteration of the primary bullet loop (`server.js` lines 246–295):
integrate, decrement the lifetime, splice immediately when `life ≤ 0`
(skipping all collision checks), otherwise check NPCs first and players
only when no NPC was hit; any hit zeroes the lifetime so the bullet is
spliced in the same tick. -/
def processBullet (npcs : List NPC) (players : List Player) (b : Bullet) :
    BulletOut :=
  let b1 : Bullet := bulletNext b
  if b1.life ≤ 0 then ⟨npcs, players, [], none⟩
  else
    let rn := killFirstNPC b1.x b1.y npcs
    if rn.2.1 then ⟨rn.1, players, rn.2.2, none⟩
    else
      let rp := killFirstHider b1.x b1.y players
      if rp.2.1 then ⟨rn.1, rp.1, rp.2.2, none⟩
      else ⟨rn.1, rp.1, [], some b1⟩

/-- The primary bullet loop iterates indices from the last bullet down to
`0`, threading the mutated NPC/player lists; removal of the current bullet
never skips another.  The input list here is already reversed (last bullet
first), and the kept bullets are rebuilt in original order. -/
def bulletsTickRev (npcs : List NPC) (players : List Player) :
    List Bullet → List NPC × List Player × List Event × List Bullet
  | [] => (npcs, players, [], [])
  | b :: rest =>
    let r := processBullet npcs players b
    let rec2 := bulletsTickRev r.npcs r.players rest
    (rec2.1, rec2.2.1, r.events ++ rec2.2.2.1, rec2.2.2.2 ++ r.keep.toList)

/-- Whole bullet phase of one primary tick. -/
def bulletsTick (npcs : List NPC) (players : List Player) (bullets : List Bullet) :
    List NPC × List Player × List Event × List Bullet :=
  bulletsTickRev npcs players bullets.reverse

/-- Win logic of the primary tick loop (`server.js` lines 298–312),
returning `some (reason, hunterWon)` when the match ends this tick. -/
def winCheck (players : List Player) (timer : Rat) (bullets : List Bullet) :
    Option (String × Bool) :=
  let livingHiders := players.filter (fun p => p.role == "hider" && !p.dead)
  let hunter := players.find? (fun p => p.role == "hunter")
  if livingHiders.length = 0 ∧ players.any (fun p => p.role == "hider") then
    some ("ALL TARGETS ELIMINATED", true)
  else if timer ≤ 0 then
    some ("TIME EXPIRED", false)
  else
    match hunter with
    | some h => if h.ammo ≤ 0 ∧ bullets.length = 0 then some ("OUT OF AMMO", false) else none
    | none => none

/-- Per-player body of `resetGame`'s `playerIds.forEach` (`server.js`
lines 69–81); `pos` stands for the `randomPos()` draw. -/
def resetPlayer (pos : Rat × Rat) (p : Player) : Player :=
  { p with x := pos.1, y := pos.2, dead := false, ammo := 0, idleTime := 0,
           stamina := 100, role := "hider", color := "#00ffcc", mark := some 0 }

/-- Reset of the player at index `i`, combined with the hunter override
(`server.js` lines 83–88): the player whose index was randomly drawn as
`hunterIdx` gets role `"hunter"`, the hunter color and
`CONFIG.hunterAmmo = 3`. -/
def assignOne (poss : Nat → Rat × Rat) (hunterIdx i : Nat) (p : Player) : Player :=
  let q := resetPlayer (poss i) p
  if i = hunterIdx then
    { q with role := "hunter", color := "#ff0055", ammo := 3 }
  else q

/-- `resetGame`'s player pass followed by the hunter assignment
(`server.js` lines 68–88): every player becomes a hider, then the player
at the randomly drawn index `hunterIdx` becomes the hunter.  `i` is the
running index into `playerIds`. -/
def assignPlayers (poss : Nat → Rat × Rat) (hunterIdx : Nat) :
    Nat → List Player → List Player
  | _, [] => []
  | i, p :: ps => assignOne poss hunterIdx i p :: assignPlayers poss hunterIdx (i + 1) ps

/-- `resetGame` (`server.js` lines 44–89).  `npcPoss` and `playerPoss`
stand for the successive `randomPos()` draws and `hunterIdx` for
`Math.floor(Math.random() * playerIds.length)`. -/
def resetGame (npcPoss playerPoss : Nat → Rat × Rat) (hunterIdx : Nat)
    (s : GameState) : GameState :=
  let totalNPCs := 20 + s.players.length * 15
  { status := Status.PLAYING,
    players := assignPlayers playerPoss hunterIdx 0 s.players,
    npcs := (List.range totalNPCs).map (fun i =>
      { id := "npc_" ++ toString i, x := (npcPoss i).1, y := (npcPoss i).2,
        moveX := 0, moveY := 0, moveTimer := 0, sprinting := false,
        color := "#00ffcc", mark := 0, dead := false }),
    bullets := [], timer := 120, events := [] }

/-- Number of hunters in a player list. -/
def countHunters : List Player → Nat
  | [] => 0
  | p :: ps => (if p.role = "hunter" then 1 else 0) + countHunters ps

/-- Primary `socket.on("disconnect")` handler (`server.js` lines
193–200): delete the player, give `host` to the first remaining player,
and end the match with a `gameOver` emission when fewer than 2 players
remain while `PLAYING`. -/
def handleDisconnect (pid : String) (s : GameState) :
    GameState × Option (String × Bool) :=
  let ps0 := s.players.filter (fun p => p.id ≠ pid)
  let ps := match ps0 with
    | [] => []
    | q :: rest => { q with host := true } :: rest
  if s.status = Status.PLAYING ∧ ps.length < 2 then
    ({ s with players := ps, status := Status.ENDED },
      some ("NOT ENOUGH PLAYERS", false))
  else
    ({ s with players := ps }, none)

/-- The random draws consumed by one NPC redraw (`server.js` lines
214–223): a fresh hold duration, whether the NPC stands still (the
`Math.random() < 0.2` branch), the new discrete intent and the sprint
flag. -/
structure NPCRedraw where
  newTimer : Rat
  standStill : Bool
  newMoveX : Int
  newMoveY : Int
  newSprint : Bool
deriving DecidableEq

/-- Bounds step of the primary NPC update (`server.js` lines 237–241):
clamp the position to `[20, GAME_WIDTH - 20]` and invert the intent axis
on contact (bounce). -/
def npcBounce (n3 : NPC) : NPC :=
  let n4 : NPC :=
    if n3.x < 20 then { n3 with x := 20, moveX := 1 }
    else if GAME_WIDTH - 20 < n3.x then { n3 with x := GAME_WIDTH - 20, moveX := -1 }
    else n3
  if n4.y < 20 then { n4 with y := 20, moveY := 1 }
  else if GAME_HEIGHT - 20 < n4.y then { n4 with y := GAME_HEIGHT - 20, moveY := -1 }
  else n4

/-- One NPC update of the primary tick loop (`server.js` lines 210–241):
dead NPCs are skipped; an expired intent timer redraws the intent; the
position advances by `speed * dMult * dt` with the `0.7071` diagonal
factor; finally `npcBounce` clamps the position. -/
def npcStep (rd : NPCRedraw) (n : NPC) : NPC :=
  if n.dead then n
  else
    let n1 : NPC :=
      if n.moveTimer ≤ 0 then
        if rd.standStill then
          { n with moveTimer := rd.newTimer, moveX := 0, moveY := 0, sprinting := false }
        else
          { n with moveTimer := rd.newTimer, moveX := rd.newMoveX,
                   moveY := rd.newMoveY, sprinting := rd.newSprint }
      else n
    let n2 := { n1 with moveTimer := n1.moveTimer - dt }
    let n3 : NPC :=
      if n2.moveX ≠ 0 ∨ n2.moveY ≠ 0 then
        let dMult : Rat := if n2.moveX ≠ 0 ∧ n2.moveY ≠ 0 then 7071 / 10000 else 1
        let speed : Rat := if n2.sprinting then 300 else 170
        { n2 with x := n2.x + (n2.moveX : Rat) * speed * dMult * dt,
                  y := n2.y + (n2.moveY : Rat) * speed * dMult * dt }
      else n2
    npcBounce n3

/-- Speed/stamina computation followed by movement and clamping
(`server.js` lines 115–142): sprint speed `300` drains stamina by `1.5`
per input, otherwise stamina regenerates by `0.5`; the hunter's base
speed is `170 * 1.1`. -/
def applyMovement (sqrtf : Rat → Rat) (inp : Input) (p1 : Player) : Player :=
  let baseSpeed : Rat := if p1.role = "hunter" then 170 * (11 / 10) else 170
  let isMoving := inp.dx ≠ 0 ∨ inp.dy ≠ 0
  let sp :=
    if inp.sprint = true ∧ 0 < p1.stamina ∧ isMoving then
      ((300 : Rat), { p1 with stamina := max 0 (p1.stamina - 3 / 2) })
    else
      (baseSpeed, { p1 with stamina := min 100 (p1.stamina + 1 / 2) })
  moveClamp sqrtf sp.1 inp sp.2

/-- The primary `socket.on("input")` handler (`server.js` lines 109–182),
run synchronously when an input message is received.  `sqrtf`, `atan2f`,
`cosf`, `sinf` stand for the corresponding `Math` functions.  Everything
it does — slot switch, stamina drain/regeneration, movement, clamping,
bullet creation, marking — mutates `gameState` directly on this
network-receive path. -/
def handleInput (sqrtf : Rat → Rat) (atan2f : Rat → Rat → Rat)
    (cosf sinf : Rat → Rat) (s : GameState) (pid : String) (inp : Input) :
    GameState :=
  match s.players.find? (fun q => q.id == pid) with
  | none => s
  | some p0 =>
    if p0.dead ∨ s.status ≠ Status.PLAYING then s
    else
      let p1 := if inp.slot ≠ 0 then { p0 with activeSlot := inp.slot } else p0
      let p3 := applyMovement sqrtf inp p1
      if inp.shoot = true ∧ p3.role = "hunter" then
        if p3.activeSlot = 1 ∧ 0 < p3.ammo then
          let pShot := { p3 with ammo := p3.ammo - 1 }
          let angle := atan2f (inp.aimY - p3.y) (inp.aimX - p3.x)
          let newB : Bullet := { x := p3.x, y := p3.y, vx := cosf angle * 1000,
                                 vy := sinf angle * 1000, life := 3 / 2,
                                 owner := p3.id }
          { s with players := s.players.map (fun q => if q.id == pid then pShot else q),
                   bullets := s.bullets ++ [newB],
                   events := s.events ++ [Event.sound "shoot"] }
        else if p3.activeSlot = 2 then
          let players1 := s.players.map (fun q => if q.id == pid then p3 else q)
          let r := markAction inp.aimX inp.aimY s.npcs players1
          { s with players := r.2, npcs := r.1 }
        else
          { s with players := s.players.map (fun q => if q.id == pid then p3 else q) }
      else
        { s with players := s.players.map (fun q => if q.id == pid then p3 else q) }

/-! ### Walls variant (second program in `src/server.js`) -/

/-- A wall rectangle of the walls variant. -/
structure Wall where
  x : Rat
  y : Rat
  w : Rat
  h : Rat
deriving DecidableEq

/-- A player record of the walls variant. -/
structure WPlayer where
  id : String
  x : Rat
  y : Rat
  dead : Bool
  color : String
  role : String
  name : String
  host : Bool
  ammo : Int
  stamina : Rat
  mark : Nat
deriving DecidableEq

/-- An NPC record of the walls variant. -/
structure WNPC where
  id : String
  x : Rat
  y : Rat
  tx : Rat
  ty : Rat
  dead : Bool
  color : String
  role : String
  idleTime : Rat
  mark : Nat
deriving DecidableEq

/-- A bullet of the walls variant: no lifetime field at all. -/
structure WBullet where
  x : Rat
  y : Rat
  vx : Rat
  vy : Rat
  owner : String
deriving DecidableEq

/-- `checkWallCollision` of the walls variant (AABB test expanded by
`PLAYER_RADIUS = 20`). -/
def checkWallCollision (walls : List Wall) (x y : Rat) : Bool :=
  walls.any (fun wall =>
    decide (wall.x < x + 20) && decide (x - 20 < wall.x + wall.w) &&
    decide (wall.y < y + 20) && decide (y - 20 < wall.y + wall.h))

/-- Result of one iteration of the walls variant's bullet loop. -/
structure WBulletOut where
  players : List WPlayer
  npcs : List WNPC
  events : List Event
  removed : Bool
  hunterDied : Bool
deriving DecidableEq

/-- One iteration of the walls variant's bullet loop (`server.js` walls
program, `gameLoop` step 4): integrate, test walls/boundaries, then the
**player** loop (all matching players die — there is no `break` — and a
dead hunter triggers `endGame(false, "HUNTER DIED")`, reported here as
`hunterDied`), and only if no player was hit the NPC loop (again without
`break`). -/
def wallsProcessBullet (walls : List Wall) (players : List WPlayer)
    (npcs : List WNPC) (b : WBullet) : WBulletOut :=
  let bx := b.x + b.vx * dt
  let by2 := b.y + b.vy * dt
  if bx < 0 ∨ GAME_WIDTH < bx ∨ by2 < 0 ∨ GAME_HEIGHT < by2 ∨
      checkWallCollision walls bx by2 then
    ⟨players, npcs, [], true, false⟩
  else
    let pHit := fun (p : WPlayer) =>
      ¬p.dead ∧ p.id ≠ b.owner ∧ distSq p.x p.y bx by2 < 400
    if players.any (fun p => decide (pHit p)) then
      ⟨players.map (fun p => if pHit p then { p with dead := true } else p), npcs,
        (players.filter (fun p => decide (pHit p))).map
          (fun p => Event.kill p.x p.y p.color),
        true,
        players.any (fun p => decide (pHit p) && p.role == "hunter")⟩
    else
      let nHit := fun (n : WNPC) => ¬n.dead ∧ distSq n.x n.y bx by2 < 400
      ⟨players,
        npcs.map (fun n => if nHit n then { n with dead := true } else n),
        (npcs.filter (fun n => decide (nHit n))).map
          (fun n => Event.kill n.x n.y n.color),
        npcs.any (fun n => decide (nHit n)), false⟩

/-- Timer and win-condition steps 1–2 of the walls variant's `gameLoop`:
the timer is decremented and checked **first**; `endGame` clears
`gameRunning`, so the all-targets-eliminated check (which runs only
`if (gameRunning)`) is skipped in the same tick.  Returns the new
`gameRunning` flag, the new timer, and the `gameOver (hunterWon, reason)`
emission if any. -/
def wallsTimerWin (players : List WPlayer) (gameRunning : Bool)
    (gameTimer : Rat) : Bool × Rat × Option (Bool × String) :=
  let s1 : Bool × Rat × Option (Bool × String) :=
    if 0 < gameTimer then
      let t := gameTimer - dt
      if t ≤ 0 then (false, t, some (false, "TIME EXPIRED"))
      else (gameRunning, t, none)
    else (gameRunning, gameTimer, none)
  if s1.1 then
    if (players.filter (fun p => p.role == "hider" && !p.dead)).length = 0 then
      (false, s1.2.1,
        match s1.2.2 with
        | some r => some r
        | none => some (true, "ALL TARGETS ELIMINATED"))
    else s1
  else s1

/-- Slot-2 marking of the walls variant's input handler: **every** alive
NPC within `Math.hypot < 30` of the aim point is marked (the `forEach`
has no early exit), and then — unconditionally — every other alive player
within the radius is marked as well (`(target.mark || 0) + 1`, wrapped to
`0` above `3`). -/
def wallsMark (selfId : String) (aimX aimY : Rat) (npcs : List WNPC)
    (players : List WPlayer) : List WNPC × List WPlayer :=
  let npcs2 := npcs.map (fun n =>
    if ¬n.dead ∧ distSq n.x n.y aimX aimY < 900 then
      { n with mark := (n.mark + 1) % 4 } else n)
  let players2 := players.map (fun p =>
    if p.id ≠ selfId ∧ ¬p.dead ∧ distSq p.x p.y aimX aimY < 900 then
      { p with mark := if 3 < p.mark + 1 then 0 else p.mark + 1 } else p)
  (npcs2, players2)

/-- The walls variant's `socket.on('disconnect')` handler: delete the
player, call `stopGame()` only when **zero** players remain, otherwise
reassign `host` if the host left.  It never emits `gameOver` and never
ends a running match over a low player count.  Returns the remaining
players and the new `gameRunning` flag. -/
def wallsDisconnect (pid : String) (players : List WPlayer)
    (gameRunning : Bool) : List WPlayer × Bool :=
  let ps := players.filter (fun p => p.id ≠ pid)
  if ps.length = 0 then (ps, false)
  else if ¬ ps.any (fun p => p.host) then
    match ps with
    | [] => (ps, gameRunning)
    | q :: rest => ({ q with host := true } :: rest, gameRunning)
  else (ps, gameRunning)

/-! ### `src/unnamed/part_000` variant (namespace prefix `p0`) -/

/-- An NPC record of the `part_000` variant. -/
structure P0NPC where
  id : String
  x : Rat
  y : Rat
  moveX : Int
  moveY : Int
  moveTimer : Rat
  color : String
  dead : Bool
deriving DecidableEq

/-- A player record of the `part_000` variant. -/
structure P0Player where
  id : String
  x : Rat
  y : Rat
  role : String
  color : String
  dead : Bool
  name : String
  host : Bool
  ammo : Int
  idleTime : Rat
deriving DecidableEq

/-- One iteration of the `part_000` bullet `forEach` (lines 223–251):
integrate and decrement the lifetime; only when the decremented lifetime
is still positive run the NPC pass and then the player pass (both
`forEach`es without early exit, and neither rechecks `b.life`), zeroing
the lifetime on any hit.  The bullet stays in the list; the tick then
filters on `b.life > 0` (`p0KeepBullet`). -/
def p0Next (b : Bullet) : Bullet :=
  { b with x := b.x + b.vx * dt, y := b.y + b.vy * dt, life := b.life - dt }

def p0BulletStep (npcs : List P0NPC) (players : List P0Player) (b : Bullet) :
    List P0NPC × List P0Player × List Event × Bullet :=
  let b1 : Bullet := p0Next b
  if 0 < b1.life then
    let nHit := fun (n : P0NPC) => ¬n.dead ∧ distSq n.x n.y b1.x b1.y < 625
    let pHit := fun (p : P0Player) =>
      p.role = "hider" ∧ ¬p.dead ∧ distSq p.x p.y b1.x b1.y < 625
    let npcs2 := npcs.map (fun n => if nHit n then { n with dead := true } else n)
    let players2 := players.map (fun p => if pHit p then { p with dead := true } else p)
    let nev := (npcs.filter (fun n => decide (nHit n))).flatMap (fun n =>
      [Event.kill n.x n.y n.color, Event.msg "CIVILIAN CASUALTY", Event.shake 10])
    let pev := (players.filter (fun p => decide (pHit p))).flatMap (fun p =>
      [Event.kill p.x p.y p.color, Event.msg "TARGET ELIMINATED", Event.shake 20])
    let life2 := if npcs.any (fun n => decide (nHit n)) ∨
        players.any (fun p => decide (pHit p)) then (0 : Rat) else b1.life
    (npcs2, players2, nev ++ pev, { b1 with life := life2 })
  else (npcs, players, [], b1)

/-- The `part_000` post-loop filter `gameState.bullets.filter((b) => b.life > 0)`. -/
def p0KeepBullet (b : Bullet) : Bool :=
  decide (0 < b.life)

/-! ### Concrete records used by witnesses and counterexamples -/

/-- Zero stand-in for an irrational `Math` function parameter. -/
def zf : Rat → Rat := fun _ => 0

/-- Zero stand-in for `Math.atan2`. -/
def zf2 : Rat → Rat → Rat := fun _ _ => 0

/-- An alive primary-variant hider at a given position. -/
def mkHider (i : String) (px py : Rat) : Player :=
  { id := i, x := px, y := py, role := "hider", color := "#00ffcc",
    dead := false, name := "Agent " ++ i, host := false, activeSlot := 1,
    stamina := 100, ammo := 0, idleTime := 0, mark := some 0 }

/-- An alive primary-variant hunter at a given position. -/
def mkHunter (i : String) (px py : Rat) : Player :=
  { id := i, x := px, y := py, role := "hunter", color := "#ff0055",
    dead := false, name := "Agent " ++ i, host := true, activeSlot := 1,
    stamina := 100, ammo := 3, idleTime := 0, mark := some 0 }

/-- An alive primary-variant NPC at a given position. -/
def mkNPC (i : String) (px py : Rat) : NPC :=
  { id := i, x := px, y := py, moveX := 0, moveY := 0, moveTimer := 0,
    sprinting := false, color := "#00ffcc", mark := 0, dead := false }

/-- The player record created by the primary connection handler
(`server.js` lines 94–105): it sets `activeSlot` and `stamina` but leaves
`ammo`, `idleTime` and `mark` undefined (`mark := none`), and there is no
phase gate, so this player can join an ongoing `PLAYING` match as an
alive hider.  `isFirst` stands for
`Object.keys(gameState.players).length === 0`. -/
def connectPlayer (i : String) (isFirst : Bool) : Player :=
  { id := i, x := GAME_WIDTH / 2, y := GAME_HEIGHT / 2, role := "hider",
    color := "#ffffff", dead := false, name := "Agent " ++ i,
    host := isFirst, activeSlot := 1, stamina := 100, ammo := 0,
    idleTime := 0, mark := none }

/-- An alive walls-variant hunter. -/
def mkWHunter (i : String) (px py : Rat) : WPlayer :=
  { id := i, x := px, y := py, dead := false, color := "#ff0055",
    role := "hunter", name := "Agent " ++ i, host := true, ammo := 6,
    stamina := 100, mark := 0 }

/-- An alive walls-variant hider. -/
def mkWHider (i : String) (px py : Rat) : WPlayer :=
  { id := i, x := px, y := py, dead := false, color := "#00ffcc",
    role := "hider", name := "Agent " ++ i, host := false, ammo := 0,
    stamina := 100, mark := 0 }

/-- An alive walls-variant NPC. -/
def mkWNPC (i : String) (px py : Rat) : WNPC :=
  { id := i, x := px, y := py, tx := px, ty := py, dead := false,
    color := "#ffff00", role := "hider", idleTime := 0, mark := 0 }

/-- C1 counterexample bullet: a walls-variant bullet sitting on top of
both a live NPC and a live hider. -/
def c1ceBullet : WBullet :=
  { x := 100, y := 100, vx := 0, vy := 0, owner := "H" }

/-- C4 counterexample bullet: a live primary-variant bullet near the
right edge, moving right at the fixed bullet speed `1000`. -/
def c4ceBullet : Bullet :=
  { x := 1975, y := 1000, vx := 1000, vy := 0, life := 3 / 2, owner := "H" }

/-- The bullet `c4ceBullet` one tick later: `x = 1975 + 1000/30 = 6025/3`,
beyond `GAME_WIDTH - 20`. -/
def c4ceBulletOut : Bullet :=
  { x := 6025 / 3, y := 1000, vx := 1000, vy := 0, life := 22 / 15, owner := "H" }

/-- C3 counterexample state: one alive player, match `PLAYING`, stamina
`90`. -/
def c3ceState : GameState :=
  { status := Status.PLAYING,
    players := [{ mkHider "A" 1000 1000 with stamina := 90 }],
    npcs := [], bullets := [], timer := 60, events := [] }

/-- C3 counterexample input: no movement, no sprint, no shoot, no slot
change — the handler still mutates the player's stamina and idle time. -/
def c3ceInput : Input :=
  { dx := 0, dy := 0, sprint := false, shoot := false, aimX := 0, aimY := 0,
    slot := 0 }

/-- C3 witness state: a hunter with ammo about to fire. -/
def c3wState : GameState :=
  { status := Status.PLAYING,
    players := [mkHunter "H" 1000 1000],
    npcs := [], bullets := [], timer := 60, events := [] }

/-- C3 witness input: fire the weapon slot at a point. -/
def c3wInput : Input :=
  { dx := 0, dy := 0, sprint := false, shoot := true, aimX := 1200,
    aimY := 1000, slot := 0 }

/-- C5 counterexample state: a `PLAYING` match with one hunter and two
hiders. -/
def c5ceState : GameState :=
  { status := Status.PLAYING,
    players := [mkHunter "A" 100 100, mkHider "B" 200 200, mkHider "C" 300 300],
    npcs := [], bullets := [], timer := 60, events := [] }

/-- C5 witness state: a lobby with two connected players. -/
def c5wState : GameState :=
  { status := Status.LOBBY,
    players := [mkHider "A" 1000 1000, mkHider "B" 1000 1000],
    npcs := [], bullets := [], timer := 0, events := [] }

/-- A fixed spawn-position stream standing for `randomPos()`. -/
def somePoss : Nat → Rat × Rat := fun _ => (500, 500)

/-- C9 witness state: a `PLAYING` match with exactly two players. -/
def c9wState : GameState :=
  { status := Status.PLAYING,
    players := [mkHunter "A" 100 100, mkHider "B" 200 200],
    npcs := [], bullets := [], timer := 60, events := [] }

/-- C1 witness bullet: a live primary-variant bullet on top of a live NPC
and near a live hider. -/
def c1wBullet : Bullet :=
  { x := 100, y := 100, vx := 0, vy := 0, life := 1, owner := "H" }

/-- C6 witness bullet whose lifetime expires on this tick. -/
def c6wBulletA : Bullet :=
  { x := 100, y := 100, vx := 0, vy := 0, life := 1 / 60, owner := "H" }

/-- C6 witness bullet that stays alive and hits nothing. -/
def c6wBulletB : Bullet :=
  { x := 100, y := 100, vx := 0, vy := 0, life := 1, owner := "H" }

/-- C4 witness NPC redraw draw. -/
def c4wRedraw : NPCRedraw :=
  { newTimer := 1, standStill := false, newMoveX := 1, newMoveY := 1,
    newSprint := true }

/-- C2 counterexample hider (walls variant), already eliminated. -/
def c2ceHider : WPlayer :=
  { mkWHider "P" 200 200 with dead := true }

/-- C2 counterexample hunter (walls variant). -/
def c2ceHunter : WPlayer :=
  mkWHunter "H" 100 100

/-- C2 witness dead hider (primary variant). -/
def c2wDeadHider : Player :=
  { mkHider "P" 200 200 with dead := true }

/-! ## Theorems -/

lemma markAction_single (ax ay : Rat) (n : NPC) (ps : List Player)
    (h1 : n.dead = false) (h2 : distSq n.x n.y ax ay < 3600) :
    markActionP ax ay ([n], ps) = ([{ n with mark := (n.mark + 1) % 4 }], ps) := by
  simp [markActionP, markAction, markFirstNPC, h1, h2]

lemma markAction_playerSingle (ax ay : Rat) (p : Player)
    (h1 : p.role = "hider") (h2 : p.dead = false)
    (h3 : distSq p.x p.y ax ay < 3600) :
    markActionP ax ay ([], [p]) = ([], [{ p with mark := jsMarkStep p.mark }]) := by
  simp [markActionP, markAction, markFirstNPC, markFirstPlayer, h1, h2, h3]

/-- **C7** (amended: initialized marks only) — Every *initialized* mark
counter stays in `{0, 1, 2, 3}` and the mark action is an advance modulo
4: one slot-2 mark action on an alive in-radius NPC advances its mark by
one modulo 4 and four applications to the same unmoving alive target
restore the whole state; the same holds for a primary-variant player
whose mark was set by `resetGame` (`mark = some k`, `k < 4`); and the
walls variant's guarded player-marking formula (`(mark || 0) + 1`,
wrapped to `0` above `3`) agrees with the same modulo-4 advance.  A
primary-variant player who joined after match start has an undefined mark
that marking turns into `NaN`, never in `{0, 1, 2, 3}` — see the
counterexample. -/
theorem claim_C7_mark_mod4 (ax ay : Rat) (n : NPC) (ps : List Player)
    (hAlive : n.dead = false) (hNear : distSq n.x n.y ax ay < 3600)
    (hMark : n.mark < 4) :
    markActionP ax ay ([n], ps) = ([{ n with mark := (n.mark + 1) % 4 }], ps) ∧
    (n.mark + 1) % 4 < 4 ∧
    markActionP ax ay (markActionP ax ay (markActionP ax ay
      (markActionP ax ay ([n], ps)))) = ([n], ps) ∧
    (∀ (selfId : String) (wp : WPlayer), wp.dead = false → wp.id ≠ selfId →
      distSq wp.x wp.y ax ay < 900 → wp.mark < 4 →
      (wallsMark selfId ax ay [] [wp]).2 = [{ wp with mark := (wp.mark + 1) % 4 }]) ∧
    (∀ (p : Player) (k : Nat), p.mark = some k → k < 4 → p.role = "hider" →
      p.dead = false → distSq p.x p.y ax ay < 3600 →
      markActionP ax ay ([], [p]) = ([], [{ p with mark := some ((k + 1) % 4) }]) ∧
      markActionP ax ay (markActionP ax ay (markActionP ax ay
        (markActionP ax ay ([], [p])))) = ([], [p])) := by
  have step : ∀ (k : Nat),
      markActionP ax ay ([{ n with mark := k }], ps) =
        ([{ n with mark := (k + 1) % 4 }], ps) := by
    intro k
    simpa using markAction_single ax ay { n with mark := k } ps hAlive hNear
  refine ⟨markAction_single ax ay n ps hAlive hNear, by omega, ?_, ?_, ?_⟩
  · have hstart : ([n], ps) = (([{ n with mark := n.mark }], ps) :
        List NPC × List Player) := rfl
    rw [hstart, step, step, step, step]
    have h4 : (((((n.mark + 1) % 4 + 1) % 4 + 1) % 4 + 1) % 4) = n.mark := by omega
    rw [h4]
  · intro selfId wp hd hid hnear hm
    have hw : (if 3 < wp.mark + 1 then 0 else wp.mark + 1) = (wp.mark + 1) % 4 := by
      split_ifs <;> omega
    simp [wallsMark, hd, hid, hnear, hw]
  · intro p k hk hklt hrole hdead hnear
    obtain ⟨pid, px, py, prole, pcolor, pdead, pname, phost, pslot, pstam,
      pammo, pidle, pmark⟩ := p
    dsimp only at hk hrole hdead
    subst hk hrole hdead
    have pstep : ∀ (j : Nat),
        markActionP ax ay ([], [Player.mk pid px py "hider" pcolor false
            pname phost pslot pstam pammo pidle (some j)]) =
          ([], [Player.mk pid px py "hider" pcolor false pname phost pslot
            pstam pammo pidle (some ((j + 1) % 4))]) := by
      intro j
      simpa [jsMarkStep] using markAction_playerSingle ax ay
        (Player.mk pid px py "hider" pcolor false pname phost pslot pstam
          pammo pidle (some j)) rfl rfl hnear
    refine ⟨pstep k, ?_⟩
    rw [pstep, pstep, pstep, pstep]
    have h4 : (((((k + 1) % 4 + 1) % 4 + 1) % 4 + 1) % 4) = k := by omega
    rw [h4]

/-- Witness for C7 at a concrete NPC: four mark actions restore the state. -/
theorem claim_C7_witness :
    markActionP 100 100 (markActionP 100 100 (markActionP 100 100
      (markActionP 100 100 ([mkNPC "npc_0" 100 100], [])))) =
      ([mkNPC "npc_0" 100 100], []) :=
  (claim_C7_mark_mod4 100 100 (mkNPC "npc_0" 100 100) [] rfl
    (by norm_num [distSq, mkNPC]) (by norm_num [mkNPC])).2.2.1

/-- Counterexample for C7 as stated: the primary connection handler
creates players without a `mark` field and has no phase gate, so a player
who joins during a `PLAYING` match is an alive, markable hider with an
undefined mark; marking them computes `(undefined + 1) % 4 = NaN`
(modelled `none`), which is not in `{0, 1, 2, 3}`, and four mark actions
leave it `NaN` instead of returning it to `0`. -/
theorem claim_C7_counterexample :
    (connectPlayer "J" false).mark = none ∧
    (connectPlayer "J" false).role = "hider" ∧
    (connectPlayer "J" false).dead = false ∧
    ((markActionP (GAME_WIDTH / 2) (GAME_HEIGHT / 2)
        ([], [connectPlayer "J" false])).2.map (fun p => p.mark)) = [none] ∧
    ((markActionP (GAME_WIDTH / 2) (GAME_HEIGHT / 2)
        (markActionP (GAME_WIDTH / 2) (GAME_HEIGHT / 2)
          (markActionP (GAME_WIDTH / 2) (GAME_HEIGHT / 2)
            (markActionP (GAME_WIDTH / 2) (GAME_HEIGHT / 2)
              ([], [connectPlayer "J" false]))))).2.map (fun p => p.mark)) =
      [none] ∧
    ∀ k : Nat, (none : Option Nat) ≠ some k := by
  refine ⟨rfl, rfl, rfl, ?_, ?_, fun k h => by cases h⟩ <;>
    norm_num [markActionP, markAction, markFirstNPC, markFirstPlayer,
      jsMarkStep, connectPlayer, distSq, GAME_WIDTH, GAME_HEIGHT]

/-- **C2** (amended: primary variant) — In the primary variant's win logic,
whenever some hider exists and every hider is dead the outcome is the
hunter win `"ALL TARGETS ELIMINATED"`, for every timer value including
expired ones; and the `"TIME EXPIRED"` hiders-win outcome occurs only
while some hider is still alive. -/
theorem claim_C2_win_priority (players : List Player) (timer : Rat)
    (bullets : List Bullet) (hEx : ∃ p ∈ players, p.role = "hider") :
    ((∀ p ∈ players, p.role = "hider" → p.dead = true) →
      winCheck players timer bullets = some ("ALL TARGETS ELIMINATED", true)) ∧
    (winCheck players timer bullets = some ("TIME EXPIRED", false) →
      ∃ p ∈ players, p.role = "hider" ∧ p.dead = false) := by
  have hAny : players.any (fun p => p.role == "hider") = true := by
    rw [List.any_eq_true]
    obtain ⟨p, hp, hr⟩ := hEx
    exact ⟨p, hp, by simp [hr]⟩
  constructor
  · intro hDead
    have hFil : players.filter (fun p => p.role == "hider" && !p.dead) = [] := by
      rw [List.filter_eq_nil_iff]
      intro a ha
      simp only [Bool.and_eq_true, beq_iff_eq, Bool.not_eq_true', not_and]
      intro hr
      simp [hDead a ha hr]
    simp [winCheck, hFil, hAny]
  · intro hEq
    by_cases hc : (players.filter (fun p => p.role == "hider" && !p.dead)).length = 0
    · exfalso
      have : winCheck players timer bullets = some ("ALL TARGETS ELIMINATED", true) := by
        simp [winCheck, hc, hAny]
      rw [this] at hEq
      exact absurd hEq (by decide)
    · have hne : players.filter (fun p => p.role == "hider" && !p.dead) ≠ [] := by
        intro h
        rw [h] at hc
        simp at hc
      obtain ⟨q, hq⟩ := List.exists_mem_of_ne_nil _ hne
      rw [List.mem_filter] at hq
      refine ⟨q, hq.1, ?_, ?_⟩
      · have := hq.2
        simp only [Bool.and_eq_true, beq_iff_eq] at this
        exact this.1
      · have := hq.2
        simp only [Bool.and_eq_true, Bool.not_eq_true'] at this
        exact this.2

/-- Witness for C2 at a concrete state: hunter + dead hider, timer already
at `0`, outcome is still the hunter win. -/
theorem claim_C2_witness :
    winCheck [mkHunter "H" 100 100, c2wDeadHider] 0 [] =
      some ("ALL TARGETS ELIMINATED", true) :=
  (claim_C2_win_priority [mkHunter "H" 100 100, c2wDeadHider] 0 []
    ⟨c2wDeadHider, by simp, rfl⟩).1
    (by simp [mkHunter, mkHider, c2wDeadHider])

/-- Counterexample for C2 as stated: in the walls variant the timer is
checked first and `endGame` clears `gameRunning`, so a tick in which the
timer expires while every hider is already dead produces the hiders-win
`"TIME EXPIRED"` outcome, not the hunter win. -/
theorem claim_C2_counterexample :
    wallsTimerWin [c2ceHunter, c2ceHider] true (1 / 30) =
      (false, 0, some (false, "TIME EXPIRED")) ∧
    c2ceHider.role = "hider" ∧ c2ceHider.dead = true ∧
    (∀ p ∈ [c2ceHunter, c2ceHider], p.role = "hider" → p.dead = true) := by
  refine ⟨?_, rfl, rfl, ?_⟩
  · norm_num [wallsTimerWin, dt, c2ceHunter, c2ceHider, mkWHider, mkWHunter]
  · simp [c2ceHunter, c2ceHider, mkWHider, mkWHunter]

lemma assignOne_role (poss : Nat → Rat × Rat) (hid i : Nat) (p : Player) :
    (assignOne poss hid i p).role = if i = hid then "hunter" else "hider" := by
  unfold assignOne resetPlayer
  split_ifs <;> rfl

lemma countHunters_assign (poss : Nat → Rat × Rat) (hid : Nat) :
    ∀ (l : List Player) (i : Nat),
      countHunters (assignPlayers poss hid i l) =
        if i ≤ hid ∧ hid < i + l.length then 1 else 0
  | [], i => by
    simp only [assignPlayers, countHunters, List.length_nil]
    split_ifs with h
    · omega
    · rfl
  | p :: ps, i => by
    have ih := countHunters_assign poss hid ps (i + 1)
    show (if (assignOne poss hid i p).role = "hunter" then 1 else 0) +
        countHunters (assignPlayers poss hid (i + 1) ps) =
      if i ≤ hid ∧ hid < i + (p :: ps).length then 1 else 0
    rw [assignOne_role, ih, List.length_cons]
    by_cases hi : i = hid
    · rw [if_pos hi, if_pos (rfl : ("hunter" : String) = "hunter")]
      split_ifs <;> omega
    · rw [if_neg hi, if_neg (show ("hider" : String) ≠ "hunter" by decide)]
      split_ifs <;> omega

/-- **C5** (amended: holds at match start, but not preserved by hunter
disconnects) — Immediately after `resetGame` with any players present
(in particular after a Lobby→Playing transition, which requires ≥ 2),
exactly one player has role `"hunter"`. -/
theorem claim_C5_one_hunter (npcPoss playerPoss : Nat → Rat × Rat)
    (hunterIdx : Nat) (s : GameState) (hIdx : hunterIdx < s.players.length) :
    countHunters (resetGame npcPoss playerPoss hunterIdx s).players = 1 := by
  have hpl : (resetGame npcPoss playerPoss hunterIdx s).players =
      assignPlayers playerPoss hunterIdx 0 s.players := rfl
  rw [hpl, countHunters_assign]
  rw [if_pos ⟨Nat.zero_le _, by omega⟩]

/-- Witness for C5: starting a 2-player lobby with hunter index 0 yields
exactly one hunter. -/
theorem claim_C5_witness :
    countHunters (resetGame somePoss somePoss 0 c5wState).players = 1 :=
  claim_C5_one_hunter somePoss somePoss 0 c5wState (by simp [c5wState])

/-- Counterexample for C5's preservation part: when the hunter disconnects
from a 3-player `PLAYING` match, the primary disconnect handler leaves the
match `PLAYING` with 2 players and zero hunters. -/
theorem claim_C5_counterexample :
    (handleDisconnect "A" c5ceState).1.status = Status.PLAYING ∧
    ((handleDisconnect "A" c5ceState).1.players).length = 2 ∧
    countHunters ((handleDisconnect "A" c5ceState).1.players) = 0 := by
  refine ⟨?_, ?_, ?_⟩ <;> decide

/-- **C9** (amended: primary variant) — The primary disconnect handler
always grants `host` to the first remaining player, and a disconnect that
leaves fewer than 2 players during `PLAYING` immediately ends the match
with reason `"NOT ENOUGH PLAYERS"` and `hunterWon = false`. -/
theorem claim_C9_disconnect (pid : String) (s : GameState) :
    (∀ q rest, (handleDisconnect pid s).1.players = q :: rest → q.host = true) ∧
    (s.status = Status.PLAYING → ((handleDisconnect pid s).1.players).length < 2 →
      (handleDisconnect pid s).1.status = Status.ENDED ∧
      (handleDisconnect pid s).2 = some ("NOT ENOUGH PLAYERS", false)) := by
  have hplayers : (handleDisconnect pid s).1.players =
      (match s.players.filter (fun p => p.id ≠ pid) with
        | [] => []
        | q :: rest => { q with host := true } :: rest) := by
    unfold handleDisconnect
    dsimp only
    split_ifs <;> rfl
  constructor
  · intro q rest hq
    rw [hplayers] at hq
    rcases hfil : s.players.filter (fun p => p.id ≠ pid) with _ | ⟨q0, rest0⟩ <;>
      rw [hfil] at hq
    · simp at hq
    · injection hq with h1 _
      rw [← h1]
  · intro hst hlen
    rw [hplayers] at hlen
    unfold handleDisconnect
    dsimp only
    rw [if_pos ⟨hst, hlen⟩]
    exact ⟨rfl, rfl⟩

/-- Witness for C9: the hider of a 2-player `PLAYING` match disconnects;
the match ends with `"NOT ENOUGH PLAYERS"` and no winner. -/
theorem claim_C9_witness :
    (handleDisconnect "B" c9wState).1.status = Status.ENDED ∧
    (handleDisconnect "B" c9wState).2 = some ("NOT ENOUGH PLAYERS", false) :=
  (claim_C9_disconnect "B" c9wState).2 rfl (by decide)

/-- Counterexample for C9 as stated: in the walls variant a disconnect that
leaves a single player during a running match neither stops the game
(`gameRunning` stays `true`) nor emits any game-over — the handler has no
below-2-players rule at all. -/
theorem claim_C9_counterexample :
    wallsDisconnect "B" [mkWHunter "A" 100 100, mkWHider "B" 200 200] true =
      ([mkWHunter "A" 100 100], true) ∧
    ([mkWHunter "A" 100 100] : List WPlayer).length < 2 := by
  constructor
  · decide
  · decide

lemma bool_not_eq_false {b : Bool} (h : ¬b) : b = false := by
  cases b
  · rfl
  · exact absurd rfl h

lemma killFirstNPC_kills (bx byy : Rat) :
    ∀ (l : List NPC), (∃ n ∈ l, n.dead = false ∧ distSq n.x n.y bx byy < 625) →
      (killFirstNPC bx byy l).2.1 = true ∧
      deadCount (killFirstNPC bx byy l).1 = deadCount l + 1
  | [], h => by simp at h
  | n :: ns, h => by
    by_cases hc : ¬n.dead ∧ distSq n.x n.y bx byy < 625
    · have hdf : n.dead = false := bool_not_eq_false hc.1
      constructor
      · show (killFirstNPC bx byy (n :: ns)).2.1 = true
        unfold killFirstNPC
        rw [if_pos hc]
      · show deadCount (killFirstNPC bx byy (n :: ns)).1 = deadCount (n :: ns) + 1
        unfold killFirstNPC
        rw [if_pos hc]
        show deadCount ({ n with dead := true } :: ns) = deadCount (n :: ns) + 1
        simp [deadCount, List.countP_cons, hdf]
    · have hTail : ∃ m ∈ ns, m.dead = false ∧ distSq m.x m.y bx byy < 625 := by
        rcases h with ⟨m, hm, hdead, hdist⟩
        rcases List.mem_cons.mp hm with rfl | hmem
        · exact absurd ⟨by simp [hdead], hdist⟩ hc
        · exact ⟨m, hmem, hdead, hdist⟩
      have ih := killFirstNPC_kills bx byy ns hTail
      constructor
      · show (killFirstNPC bx byy (n :: ns)).2.1 = true
        unfold killFirstNPC
        rw [if_neg hc]
        exact ih.1
      · show deadCount (killFirstNPC bx byy (n :: ns)).1 = deadCount (n :: ns) + 1
        unfold killFirstNPC
        rw [if_neg hc]
        show deadCount (n :: (killFirstNPC bx byy ns).1) = deadCount (n :: ns) + 1
        simp only [deadCount, List.countP_cons] at ih ⊢
        omega

/-- **C1** (amended: primary variant) — In the primary variant's bullet
loop, a projectile that is still live after this tick's integration and
lies within hit radius of both an alive NPC and an alive hider kills
exactly one NPC, leaves every player untouched, and is itself removed, so
it credits no further collision this tick (NPCs are iterated before
players; the walls variant instead checks players first, see the
counterexample). -/
theorem claim_C1_npc_priority (npcs : List NPC) (players : List Player) (b : Bullet)
    (hLife : 0 < b.life - dt)
    (hNPC : ∃ n ∈ npcs, n.dead = false ∧
      distSq n.x n.y (bulletNext b).x (bulletNext b).y < 625)
    (hHider : ∃ p ∈ players, p.role = "hider" ∧ p.dead = false ∧
      distSq p.x p.y (bulletNext b).x (bulletNext b).y < 625) :
    (processBullet npcs players b).players = players ∧
    deadCount (processBullet npcs players b).npcs = deadCount npcs + 1 ∧
    (processBullet npcs players b).keep = none := by
  have hk := killFirstNPC_kills (bulletNext b).x (bulletNext b).y npcs hNPC
  unfold processBullet
  dsimp only
  rw [if_neg (show ¬((bulletNext b).life ≤ 0) from not_le.mpr hLife), if_pos hk.1]
  exact ⟨rfl, hk.2, rfl⟩

/-- Witness for C1 at a concrete live bullet sitting on an alive NPC with
an alive hider 10 units away: the NPC dies, the player list is unchanged,
the bullet is gone. -/
theorem claim_C1_witness :
    (processBullet [mkNPC "npc_0" 100 100] [mkHider "P" 110 100] c1wBullet).players =
      [mkHider "P" 110 100] ∧
    deadCount (processBullet [mkNPC "npc_0" 100 100] [mkHider "P" 110 100]
      c1wBullet).npcs = deadCount [mkNPC "npc_0" 100 100] + 1 ∧
    (processBullet [mkNPC "npc_0" 100 100] [mkHider "P" 110 100] c1wBullet).keep =
      none :=
  claim_C1_npc_priority [mkNPC "npc_0" 100 100] [mkHider "P" 110 100] c1wBullet
    (by norm_num [c1wBullet, dt])
    ⟨mkNPC "npc_0" 100 100, by simp, rfl,
      by norm_num [distSq, bulletNext, mkNPC, c1wBullet, dt]⟩
    ⟨mkHider "P" 110 100, by simp, rfl, rfl,
      by norm_num [distSq, bulletNext, mkHider, c1wBullet, dt]⟩

/-- Counterexample for C1 as stated: in the walls variant's bullet loop the
player pass runs **before** the NPC pass, so a bullet on top of both a
live NPC and a live hider kills the hider and leaves the NPC alive. -/
theorem claim_C1_counterexample :
    (wallsProcessBullet [] [mkWHunter "H" 500 500, mkWHider "P" 100 100]
        [mkWNPC "npc-0" 100 100] c1ceBullet).players =
      [mkWHunter "H" 500 500, { mkWHider "P" 100 100 with dead := true }] ∧
    (wallsProcessBullet [] [mkWHunter "H" 500 500, mkWHider "P" 100 100]
        [mkWNPC "npc-0" 100 100] c1ceBullet).npcs = [mkWNPC "npc-0" 100 100] ∧
    (mkWNPC "npc-0" 100 100).dead = false ∧ (mkWHider "P" 100 100).dead = false := by
  refine ⟨?_, ?_, rfl, rfl⟩ <;>
    norm_num [wallsProcessBullet, checkWallCollision, distSq, dt, c1ceBullet,
      mkWHunter, mkWHider, mkWNPC, GAME_WIDTH, GAME_HEIGHT] <;>
    simp

lemma killFirstNPC_cons (bx byy : Rat) (n : NPC) (ns : List NPC) :
    killFirstNPC bx byy (n :: ns) =
      if ¬n.dead ∧ distSq n.x n.y bx byy < 625 then
        ({ n with dead := true } :: ns, true,
          [Event.kill n.x n.y n.color, Event.msg "CIVILIAN CASUALTY",
            Event.shake 10])
      else (n :: (killFirstNPC bx byy ns).1, (killFirstNPC bx byy ns).2.1,
        (killFirstNPC bx byy ns).2.2) := rfl

lemma killFirstHider_cons (bx byy : Rat) (p : Player) (ps : List Player) :
    killFirstHider bx byy (p :: ps) =
      if p.role = "hider" ∧ ¬p.dead ∧ distSq p.x p.y bx byy < 625 then
        ({ p with dead := true } :: ps, true,
          [Event.kill p.x p.y p.color, Event.msg "TARGET ELIMINATED",
            Event.shake 20])
      else (p :: (killFirstHider bx byy ps).1, (killFirstHider bx byy ps).2.1,
        (killFirstHider bx byy ps).2.2) := rfl

lemma markFirstNPC_cons (ax ay : Rat) (n : NPC) (ns : List NPC) :
    markFirstNPC ax ay (n :: ns) =
      if ¬n.dead ∧ distSq n.x n.y ax ay < 3600 then
        ({ n with mark := (n.mark + 1) % 4 } :: ns, true)
      else (n :: (markFirstNPC ax ay ns).1, (markFirstNPC ax ay ns).2) := rfl

lemma markFirstPlayer_cons (ax ay : Rat) (p : Player) (ps : List Player) :
    markFirstPlayer ax ay (p :: ps) =
      if p.role = "hider" ∧ ¬p.dead ∧ distSq p.x p.y ax ay < 3600 then
        { p with mark := jsMarkStep p.mark } :: ps
      else p :: markFirstPlayer ax ay ps := rfl

lemma killFirstNPC_memOf (bx byy : Rat) :
    ∀ (l : List NPC), ∀ m ∈ (killFirstNPC bx byy l).1,
      m ∈ l ∨ ∃ n ∈ l, n.dead = false ∧ m = { n with dead := true }
  | [], m, hm => by simp [killFirstNPC] at hm
  | n :: ns, m, hm => by
    by_cases hc : ¬n.dead ∧ distSq n.x n.y bx byy < 625
    · rw [show (killFirstNPC bx byy (n :: ns)).1 = { n with dead := true } :: ns
          from by unfold killFirstNPC; rw [if_pos hc]] at hm
      rcases List.mem_cons.mp hm with rfl | hmem
      · exact Or.inr ⟨n, List.mem_cons_self n ns, bool_not_eq_false hc.1, rfl⟩
      · exact Or.inl (List.mem_cons_of_mem _ hmem)
    · rw [killFirstNPC_cons bx byy n ns, if_neg hc] at hm
      dsimp only at hm
      rcases List.mem_cons.mp hm with rfl | hmem
      · exact Or.inl (List.mem_cons_self m ns)
      · rcases killFirstNPC_memOf bx byy ns m hmem with h | ⟨q, hq, hd, he⟩
        · exact Or.inl (List.mem_cons_of_mem _ h)
        · exact Or.inr ⟨q, List.mem_cons_of_mem _ hq, hd, he⟩

lemma killFirstHider_memOf (bx byy : Rat) :
    ∀ (l : List Player), ∀ m ∈ (killFirstHider bx byy l).1,
      m ∈ l ∨ ∃ p ∈ l, p.role = "hider" ∧ p.dead = false ∧ m = { p with dead := true }
  | [], m, hm => by simp [killFirstHider] at hm
  | p :: ps, m, hm => by
    by_cases hc : p.role = "hider" ∧ ¬p.dead ∧ distSq p.x p.y bx byy < 625
    · rw [show (killFirstHider bx byy (p :: ps)).1 = { p with dead := true } :: ps
          from by unfold killFirstHider; rw [if_pos hc]] at hm
      rcases List.mem_cons.mp hm with rfl | hmem
      · exact Or.inr ⟨p, List.mem_cons_self p ps, hc.1, bool_not_eq_false hc.2.1, rfl⟩
      · exact Or.inl (List.mem_cons_of_mem _ hmem)
    · rw [killFirstHider_cons bx byy p ps, if_neg hc] at hm
      dsimp only at hm
      rcases List.mem_cons.mp hm with rfl | hmem
      · exact Or.inl (List.mem_cons_self m ps)
      · rcases killFirstHider_memOf bx byy ps m hmem with h | ⟨q, hq, hr, hd, he⟩
        · exact Or.inl (List.mem_cons_of_mem _ h)
        · exact Or.inr ⟨q, List.mem_cons_of_mem _ hq, hr, hd, he⟩

/-- **C10** — The primary variant's per-bullet collision processing only
ever flips the `dead` flag of an alive NPC or of an alive hider-role
player: every output player either is an input player unchanged or is an
alive input hider marked dead; in particular every hunter-role player in
the output is an input player unchanged (the hunter is never eliminated);
and every output NPC is an input NPC unchanged or an alive input NPC
marked dead. -/
theorem claim_C10_hunter_immune (npcs : List NPC) (players : List Player)
    (b : Bullet) :
    (∀ q ∈ (processBullet npcs players b).players,
      q ∈ players ∨ ∃ p ∈ players, p.role = "hider" ∧ p.dead = false ∧
        q = { p with dead := true }) ∧
    (∀ q ∈ (processBullet npcs players b).players, q.role = "hunter" →
      q ∈ players) ∧
    (∀ m ∈ (processBullet npcs players b).npcs,
      m ∈ npcs ∨ ∃ n ∈ npcs, n.dead = false ∧ m = { n with dead := true }) := by
  have hmain : ∀ q ∈ (processBullet npcs players b).players,
      q ∈ players ∨ ∃ p ∈ players, p.role = "hider" ∧ p.dead = false ∧
        q = { p with dead := true } := by
    intro q hq
    unfold processBullet at hq
    dsimp only at hq
    split_ifs at hq
    · exact Or.inl hq
    · exact Or.inl hq
    · exact killFirstHider_memOf _ _ players q hq
    · exact killFirstHider_memOf _ _ players q hq
  refine ⟨hmain, ?_, ?_⟩
  · intro q hq hrole
    rcases hmain q hq with h | ⟨p, _, hrp, _, he⟩
    · exact h
    · exfalso
      rw [he] at hrole
      have : p.role = "hunter" := hrole
      rw [hrp] at this
      exact absurd this (by decide)
  · intro m hm
    unfold processBullet at hm
    dsimp only at hm
    split_ifs at hm
    · exact Or.inl hm
    · exact killFirstNPC_memOf _ _ npcs m hm
    · exact killFirstNPC_memOf _ _ npcs m hm
    · exact killFirstNPC_memOf _ _ npcs m hm

/-- Witness for C10: a live bullet on top of the hunter leaves the hunter
in the player list unchanged. -/
theorem claim_C10_witness :
    mkHunter "H" 100 100 ∈ [mkHunter "H" 100 100] := by
  have hq : mkHunter "H" 100 100 ∈
      (processBullet [] [mkHunter "H" 100 100] c1wBullet).players := by
    norm_num [processBullet, bulletNext, killFirstNPC, killFirstHider,
      distSq, dt, c1wBullet, mkHunter]
    simp
  exact (claim_C10_hunter_immune [] [mkHunter "H" 100 100] c1wBullet).2.1
    (mkHunter "H" 100 100) hq rfl

lemma changedCount_self {α : Type} [DecidableEq α] :
    ∀ l : List α, changedCount l l = 0
  | [] => rfl
  | a :: as => by simp [changedCount, changedCount_self as]

lemma markFirstNPC_changed (ax ay : Rat) :
    ∀ l : List NPC, changedCount l (markFirstNPC ax ay l).1 ≤ 1
  | [] => by simp [markFirstNPC, changedCount]
  | n :: ns => by
    by_cases hc : ¬n.dead ∧ distSq n.x n.y ax ay < 3600
    · rw [show (markFirstNPC ax ay (n :: ns)).1 = { n with mark := (n.mark + 1) % 4 } :: ns
          from by unfold markFirstNPC; rw [if_pos hc]]
      show (if n = { n with mark := (n.mark + 1) % 4 } then 0 else 1) +
        changedCount ns ns ≤ 1
      rw [changedCount_self ns]
      split_ifs <;> omega
    · rw [markFirstNPC_cons ax ay n ns, if_neg hc]
      dsimp only
      show (if n = n then 0 else 1) + changedCount ns (markFirstNPC ax ay ns).1 ≤ 1
      rw [if_pos rfl]
      simpa using markFirstNPC_changed ax ay ns

lemma markFirstPlayer_changed (ax ay : Rat) :
    ∀ l : List Player, changedCount l (markFirstPlayer ax ay l) ≤ 1
  | [] => by simp [markFirstPlayer, changedCount]
  | p :: ps => by
    by_cases hc : p.role = "hider" ∧ ¬p.dead ∧ distSq p.x p.y ax ay < 3600
    · rw [show markFirstPlayer ax ay (p :: ps) = { p with mark := jsMarkStep p.mark } :: ps
          from by unfold markFirstPlayer; rw [if_pos hc]]
      show (if p = { p with mark := jsMarkStep p.mark } then 0 else 1) +
        changedCount ps ps ≤ 1
      rw [changedCount_self ps]
      split_ifs <;> omega
    · rw [markFirstPlayer_cons ax ay p ps, if_neg hc]
      show (if p = p then 0 else 1) + changedCount ps (markFirstPlayer ax ay ps) ≤ 1
      rw [if_pos rfl]
      simpa using markFirstPlayer_changed ax ay ps

lemma markFirstNPC_hitOf (ax ay : Rat) :
    ∀ l : List NPC, (∃ n ∈ l, n.dead = false ∧ distSq n.x n.y ax ay < 3600) →
      (markFirstNPC ax ay l).2 = true
  | [], h => by simp at h
  | n :: ns, h => by
    by_cases hc : ¬n.dead ∧ distSq n.x n.y ax ay < 3600
    · show (markFirstNPC ax ay (n :: ns)).2 = true
      unfold markFirstNPC
      rw [if_pos hc]
    · have hTail : ∃ m ∈ ns, m.dead = false ∧ distSq m.x m.y ax ay < 3600 := by
        rcases h with ⟨m, hm, hdead, hdist⟩
        rcases List.mem_cons.mp hm with rfl | hmem
        · exact absurd ⟨by simp [hdead], hdist⟩ hc
        · exact ⟨m, hmem, hdead, hdist⟩
      show (markFirstNPC ax ay (n :: ns)).2 = true
      unfold markFirstNPC
      rw [if_neg hc]
      exact markFirstNPC_hitOf ax ay ns hTail

lemma markFirstNPC_nohit (ax ay : Rat) :
    ∀ l : List NPC, (markFirstNPC ax ay l).2 = false → (markFirstNPC ax ay l).1 = l
  | [], _ => rfl
  | n :: ns, h => by
    by_cases hc : ¬n.dead ∧ distSq n.x n.y ax ay < 3600
    · rw [show (markFirstNPC ax ay (n :: ns)).2 = true
          from by unfold markFirstNPC; rw [if_pos hc]] at h
      exact absurd h (by decide)
    · rw [markFirstNPC_cons ax ay n ns, if_neg hc] at h ⊢
      dsimp only at h ⊢
      rw [markFirstNPC_nohit ax ay ns h]

/-- **C8** (amended: primary variant) — One slot-2 mark action of the
primary input handler changes the mark of at most one entity over NPCs
and players combined, and whenever some alive NPC is within the marking
radius the player list is left completely untouched (players are only
considered when no NPC was marked).  The walls variant marks every NPC
and every other player in radius, see the counterexample. -/
theorem claim_C8_single_mark (ax ay : Rat) (npcs : List NPC)
    (players : List Player) :
    changedCount npcs (markAction ax ay npcs players).1 +
      changedCount players (markAction ax ay npcs players).2 ≤ 1 ∧
    ((∃ n ∈ npcs, n.dead = false ∧ distSq n.x n.y ax ay < 3600) →
      (markAction ax ay npcs players).2 = players) := by
  constructor
  · unfold markAction
    dsimp only
    by_cases hb : (markFirstNPC ax ay npcs).2
    · rw [if_pos hb]
      have h1 := markFirstNPC_changed ax ay npcs
      have h0 := changedCount_self players
      dsimp only
      omega
    · rw [if_neg hb]
      dsimp only
      rw [markFirstNPC_nohit ax ay npcs (bool_not_eq_false hb)]
      have h1 := markFirstPlayer_changed ax ay players
      have h0 := changedCount_self npcs
      omega
  · intro hex
    unfold markAction
    dsimp only
    rw [if_pos (markFirstNPC_hitOf ax ay npcs hex)]

/-- Witness for C8: with an alive NPC and an alive hider both at the aim
point, one action changes at most one mark and the players are untouched. -/
theorem claim_C8_witness :
    changedCount [mkNPC "npc_0" 100 100]
        (markAction 100 100 [mkNPC "npc_0" 100 100] [mkHider "P" 100 100]).1 +
      changedCount [mkHider "P" 100 100]
        (markAction 100 100 [mkNPC "npc_0" 100 100] [mkHider "P" 100 100]).2 ≤ 1 ∧
    (markAction 100 100 [mkNPC "npc_0" 100 100] [mkHider "P" 100 100]).2 =
      [mkHider "P" 100 100] :=
  ⟨(claim_C8_single_mark 100 100 [mkNPC "npc_0" 100 100] [mkHider "P" 100 100]).1,
    (claim_C8_single_mark 100 100 [mkNPC "npc_0" 100 100] [mkHider "P" 100 100]).2
      ⟨mkNPC "npc_0" 100 100, List.mem_cons_self _ _, rfl,
        by norm_num [distSq, mkNPC]⟩⟩

/-- Counterexample for C8 as stated: one walls-variant mark action on two
alive NPCs at the aim point advances **both** their marks (the `forEach`
has no early exit), so more than one entity is marked per action. -/
theorem claim_C8_counterexample :
    ((wallsMark "H" 100 100 [mkWNPC "npc-0" 100 100, mkWNPC "npc-1" 100 100]
        []).1.map (fun n => n.mark)) = [1, 1] ∧
    (mkWNPC "npc-0" 100 100).mark = 0 ∧ (mkWNPC "npc-1" 100 100).mark = 0 := by
  refine ⟨?_, rfl, rfl⟩
  norm_num [wallsMark, distSq, mkWNPC]

/-- **C6** — In the primary variant, a projectile's lifetime falls by
exactly `dt` on the tick, a projectile whose decremented lifetime is `≤ 0`
is removed in that same tick with no collision processing at all (NPCs,
players and events untouched), and a projectile kept for the next tick
has a strictly smaller, still positive lifetime; the `part_000` variant
behaves the same way (its `b.life > 0` gate skips both collision passes
and the post-loop filter drops the bullet). -/
theorem claim_C6_lifetime (npcs : List NPC) (players : List Player) (b : Bullet)
    (npcs0 : List P0NPC) (players0 : List P0Player) (b0 : Bullet) :
    (b.life - dt ≤ 0 →
      processBullet npcs players b = ⟨npcs, players, [], none⟩) ∧
    (∀ b2, (processBullet npcs players b).keep = some b2 →
      b2.life = b.life - dt ∧ 0 < b2.life ∧ b2.life < b.life) ∧
    (b0.life - dt ≤ 0 →
      p0BulletStep npcs0 players0 b0 = (npcs0, players0, [], p0Next b0) ∧
      p0KeepBullet (p0Next b0) = false) := by
  have hdt : (0 : Rat) < dt := by norm_num [dt]
  refine ⟨?_, ?_, ?_⟩
  · intro h
    unfold processBullet
    dsimp only
    rw [if_pos (show (bulletNext b).life ≤ 0 from h)]
  · intro b2 hb2
    unfold processBullet at hb2
    dsimp only at hb2
    split_ifs at hb2 with h1 h2 h3 <;> simp only [Option.some.injEq] at hb2
    subst hb2
    refine ⟨rfl, not_le.mp h1, ?_⟩
    have h1b : (0 : Rat) < b.life - dt := not_le.mp h1
    show b.life - dt < b.life
    linarith
  · intro h
    constructor
    · unfold p0BulletStep
      dsimp only
      rw [if_neg (show ¬(0 < (p0Next b0).life) from not_lt.mpr h)]
    · exact decide_eq_false (not_lt.mpr h)

/-- Witness for C6: a bullet with lifetime `1/60` expires this tick
(`1/60 - 1/30 ≤ 0`), is removed with no collision processing, and the
`part_000` filter predicate rejects it; a bullet with lifetime `1` stays
with positive decremented lifetime. -/
theorem claim_C6_witness :
    processBullet [] [] c6wBulletA = ⟨[], [], [], none⟩ ∧
    p0KeepBullet (p0Next c6wBulletA) = false ∧
    (0 : Rat) < c6wBulletB.life - dt := by
  have hA : c6wBulletA.life - dt ≤ 0 := by norm_num [c6wBulletA, dt]
  refine ⟨(claim_C6_lifetime [] [] c6wBulletA [] [] c6wBulletA).1 hA,
    ((claim_C6_lifetime [] [] c6wBulletA [] [] c6wBulletA).2.2 hA).2, ?_⟩
  have hk : (processBullet [] [] c6wBulletB).keep =
      some (bulletNext c6wBulletB) := by
    norm_num [processBullet, bulletNext, killFirstNPC, killFirstHider,
      c6wBulletB, dt]
  exact ((claim_C6_lifetime [] [] c6wBulletB [] [] c6wBulletB).2.1 _ hk).2.1

lemma clampCoord_bounds (hi v : Rat) (hhi : 40 ≤ hi) :
    20 ≤ clampCoord hi v ∧ clampCoord hi v ≤ hi - 20 := by
  unfold clampCoord
  split_ifs with h1 h2
  · constructor <;> linarith
  · constructor <;> linarith
  · constructor <;> linarith

lemma npcBounce_bounds (m : NPC) :
    20 ≤ (npcBounce m).x ∧ (npcBounce m).x ≤ GAME_WIDTH - 20 ∧
    20 ≤ (npcBounce m).y ∧ (npcBounce m).y ≤ GAME_HEIGHT - 20 := by
  unfold npcBounce
  simp only [GAME_WIDTH, GAME_HEIGHT]
  split_ifs <;>
    (try dsimp only at *) <;>
    (try simp only [not_lt] at *) <;>
    refine ⟨?_, ?_, ?_, ?_⟩ <;>
    first
      | assumption
      | norm_num
      | linarith

/-- **C4** (amended: players and NPCs only) — After the primary input
handler's clamping step every player coordinate lies in
`[20, dimension - 20]` on both axes, and after the primary tick's NPC
bounds step every alive NPC's coordinates lie in the same range, on the
2000×2000 field; projectiles are *not* clamped (see the counterexample). -/
theorem claim_C4_bounds (rd : NPCRedraw) (n : NPC) (hn : n.dead = false)
    (sqrtf : Rat → Rat) (speed : Rat) (inp : Input) (p : Player) :
    (20 ≤ (npcStep rd n).x ∧ (npcStep rd n).x ≤ GAME_WIDTH - 20 ∧
      20 ≤ (npcStep rd n).y ∧ (npcStep rd n).y ≤ GAME_HEIGHT - 20) ∧
    (20 ≤ (moveClamp sqrtf speed inp p).x ∧
      (moveClamp sqrtf speed inp p).x ≤ GAME_WIDTH - 20 ∧
      20 ≤ (moveClamp sqrtf speed inp p).y ∧
      (moveClamp sqrtf speed inp p).y ≤ GAME_HEIGHT - 20) := by
  constructor
  · unfold npcStep
    rw [if_neg (by simp [hn])]
    exact npcBounce_bounds _
  · unfold moveClamp
    dsimp only
    refine ⟨(clampCoord_bounds _ _ ?_).1, (clampCoord_bounds _ _ ?_).2,
      (clampCoord_bounds _ _ ?_).1, (clampCoord_bounds _ _ ?_).2⟩ <;>
      norm_num [GAME_WIDTH, GAME_HEIGHT]

/-- Witness for C4: an alive NPC that wandered far out of bounds is pulled
back to the field edge by the bounds step, and the player clamp likewise
bounds an arbitrary movement outcome. -/
theorem claim_C4_witness :
    (20 ≤ (npcStep c4wRedraw (mkNPC "npc_0" 3000 (-5))).x ∧
      (npcStep c4wRedraw (mkNPC "npc_0" 3000 (-5))).x ≤ GAME_WIDTH - 20 ∧
      20 ≤ (npcStep c4wRedraw (mkNPC "npc_0" 3000 (-5))).y ∧
      (npcStep c4wRedraw (mkNPC "npc_0" 3000 (-5))).y ≤ GAME_HEIGHT - 20) ∧
    (20 ≤ (moveClamp zf 300 c3ceInput (mkHider "P" 100 100)).x ∧
      (moveClamp zf 300 c3ceInput (mkHider "P" 100 100)).x ≤ GAME_WIDTH - 20 ∧
      20 ≤ (moveClamp zf 300 c3ceInput (mkHider "P" 100 100)).y ∧
      (moveClamp zf 300 c3ceInput (mkHider "P" 100 100)).y ≤ GAME_HEIGHT - 20) :=
  claim_C4_bounds c4wRedraw (mkNPC "npc_0" 3000 (-5)) rfl zf 300 c3ceInput
    (mkHider "P" 100 100)

/-- Counterexample for C4 as stated: a live primary-variant projectile is
integrated without any boundary clamping; one tick after starting at
`x = 1975` with `vx = 1000` it sits at `x = 6025/3 > 1980` and is still
kept in the bullet list. -/
theorem claim_C4_counterexample :
    (processBullet [] [] c4ceBullet).keep = some c4ceBulletOut ∧
    GAME_WIDTH - 20 < c4ceBulletOut.x := by
  constructor
  · norm_num [processBullet, bulletNext, killFirstNPC, killFirstHider,
      c4ceBullet, c4ceBulletOut, dt]
  · norm_num [c4ceBulletOut, GAME_WIDTH]

lemma applyMovement_fields (sqrtf : Rat → Rat) (inp : Input) (p1 : Player) :
    (applyMovement sqrtf inp p1).role = p1.role ∧
    (applyMovement sqrtf inp p1).ammo = p1.ammo ∧
    (applyMovement sqrtf inp p1).activeSlot = p1.activeSlot ∧
    (applyMovement sqrtf inp p1).id = p1.id := by
  unfold applyMovement moveClamp
  dsimp only
  split_ifs <;> exact ⟨rfl, rfl, rfl, rfl⟩

/-- **C3** (amended: no buffering — the receive path mutates directly) —
The primary `socket.on("input")` handler mutates the simulation state
synchronously on the network-receive path; in particular, when the sender
is an alive hunter in a `PLAYING` match firing weapon slot 1 with ammo,
the handler itself appends the new projectile (for arbitrary stand-ins
for the irrational `Math` functions).  There is no input buffer and no
per-tick consumption of inputs anywhere in the source. -/
theorem claim_C3_direct_mutation (sqrtf : Rat → Rat) (atan2f : Rat → Rat → Rat)
    (cosf sinf : Rat → Rat) (s : GameState) (pid : String) (inp : Input)
    (p0 : Player)
    (hFind : s.players.find? (fun q => q.id == pid) = some p0)
    (hDead : p0.dead = false) (hStatus : s.status = Status.PLAYING)
    (hShoot : inp.shoot = true) (hRole : p0.role = "hunter")
    (hSlot : (if inp.slot ≠ 0 then inp.slot else p0.activeSlot) = 1)
    (hAmmo : 0 < p0.ammo) :
    (handleInput sqrtf atan2f cosf sinf s pid inp).bullets.length =
      s.bullets.length + 1 := by
  unfold handleInput
  rw [hFind]
  dsimp only
  rw [if_neg (by simp [hDead, hStatus])]
  set p1 : Player := if inp.slot ≠ 0 then { p0 with activeSlot := inp.slot } else p0
    with hp1def
  have hp1role : p1.role = p0.role := by
    rw [hp1def]; split_ifs <;> rfl
  have hp1ammo : p1.ammo = p0.ammo := by
    rw [hp1def]; split_ifs <;> rfl
  have hp1slot : p1.activeSlot = 1 := by
    rw [hp1def]
    split_ifs with h
    · rw [if_pos h] at hSlot
      exact hSlot
    · rw [if_neg h] at hSlot
      exact hSlot
  have hf := applyMovement_fields sqrtf inp p1
  rw [if_pos ⟨hShoot, by rw [hf.1, hp1role]; exact hRole⟩]
  rw [if_pos ⟨by rw [hf.2.2.1]; exact hp1slot,
    by rw [hf.2.1, hp1ammo]; exact hAmmo⟩]
  dsimp only
  rw [List.length_append]
  rfl

/-- Witness for C3: a concrete hunter's fire input makes the handler
append one bullet on the receive path. -/
theorem claim_C3_witness :
    (handleInput zf zf2 zf zf c3wState "H" c3wInput).bullets.length =
      c3wState.bullets.length + 1 :=
  claim_C3_direct_mutation zf zf2 zf zf c3wState "H" c3wInput
    (mkHunter "H" 1000 1000) rfl rfl rfl rfl rfl (by decide) (by decide)

/-- Counterexample for C3 as stated: the handler mutates state directly on
receipt — even an all-zero input (no movement, no shooting) changes the
sender's stamina from `90` to `90.5` before any tick runs. -/
theorem claim_C3_counterexample :
    ((handleInput zf zf2 zf zf c3ceState "A" c3ceInput).players.map
      (fun p => p.stamina)) = [181 / 2] ∧
    (c3ceState.players.map (fun p => p.stamina)) = [90] := by
  constructor
  · norm_num [handleInput, applyMovement, moveClamp, clampCoord, c3ceState,
      c3ceInput, mkHider, dt, min_def, GAME_WIDTH, GAME_HEIGHT]
  · rfl

end Decoys
